import Mathlib

/-
Shallow embedding of the repository's two scripts:
  * src/zabbix_setup_config.py  (class ZabbixConfigFromCOT, method run and helpers)
  * src/zb_sync_prep.py         (module-level device loop)
Python values stored in JSON custom fields and found on reflected catalog
rows are modelled by the inductive type PyVal; Python dicts by association
lists with last-write-wins update; machine integers by Int (Python ints are
unbounded, so no wrap-around is modelled).
-/

set_option autoImplicit false

namespace NB

/-- A Python value as it appears in `custom_field_data` dicts and on reflected
catalog rows. `fk` models an ORM object reachable through a foreign key (it
exposes `.pk`); `m2m` models a related manager whose `.all()` yields objects
with the given pks. -/
inductive PyVal where
  | none
  | bool (b : Bool)
  | int (n : Int)
  | str (s : String)
  | list (xs : List PyVal)
  | dict (xs : List (String × PyVal))
  | fk (pk : Option Int)
  | m2m (pks : List Int)

/-- A Python dict with string keys (`custom_field_data`, JSON containers). -/
abbrev PyDict := List (String × PyVal)

/-- `d[k]` when present: first binding for `k`.  Bindings are unique by
construction (`dSet` replaces in place), so this is the dict lookup. -/
def dGet : PyDict → String → Option PyVal
  | [], _ => Option.none
  | kv :: tl, k => if kv.1 = k then some kv.2 else dGet tl k

/-- Python `d.get(k)`: the stored value, `None` when the key is missing. -/
def dGetD (m : PyDict) (k : String) : PyVal :=
  (dGet m k).getD PyVal.none

/-- Python `k in d`. -/
def dHas (m : PyDict) (k : String) : Bool :=
  (dGet m k).isSome

/-- Python `d[k] = v`: replace the binding in place, else append. -/
def dSet : PyDict → String → PyVal → PyDict
  | [], k, v => [(k, v)]
  | kv :: tl, k, v => if kv.1 = k then (k, v) :: tl else kv :: dSet tl k v

/-- Python `str(v)`.  Scalars are rendered exactly; for containers and ORM
objects Python's `str` is some non-empty textual form whose precise content
the scripts never inspect (they only test emptiness after `.strip()`), so the
model uses a fixed non-empty placeholder for those. -/
def pyStr : PyVal → String
  | .none => "None"
  | .bool true => "True"
  | .bool false => "False"
  | .int n => toString n
  | .str s => s
  | .list _ => "[...]"
  | .dict _ => "{...}"
  | .fk _ => "<object>"
  | .m2m _ => "<manager>"

/-- Python truthiness `bool(v)` for the values the scripts test. -/
def pyTruthy : PyVal → Bool
  | .none => false
  | .bool b => b
  | .int n => n != 0
  | .str s => s ≠ ""
  | .list xs => ¬ xs.isEmpty
  | .dict xs => ¬ xs.isEmpty
  | .fk _ => true
  | .m2m _ => true

/-- Python `v in (None, "")` (membership by `==`). -/
def pyNoneOrEmpty : PyVal → Bool
  | .none => true
  | .str s => s = ""
  | _ => false

/-- Python `v in (None, "", 0)` (membership by `==`; note `False == 0`). -/
def pyBlank : PyVal → Bool
  | .none => true
  | .str s => s = ""
  | .int n => n = 0
  | .bool b => b = false
  | _ => false

/-- Python `v == s` for a string literal `s` on the right. -/
def pyEqStr (v : PyVal) (s : String) : Bool :=
  match v with
  | .str t => t = s
  | _ => false

/-- Python `s.strip()`: drop leading and trailing whitespace.  (Implemented
over the character list so that concrete inputs evaluate; ASCII whitespace,
which is all the scripts' data contains.) -/
def pyStrip (s : String) : String :=
  String.mk (((s.data.dropWhile Char.isWhitespace).reverse.dropWhile Char.isWhitespace).reverse)

/-- Python `s.lower()` (ASCII, over the character list). -/
def strLower (s : String) : String :=
  String.mk (s.data.map Char.toLower)

/-- Python `int(s)` on a string: optional surrounding whitespace, optional
sign, at least one digit; `none` models the raised `ValueError`. -/
def parseInt (s : String) : Option Int :=
  let t := (pyStrip s).data
  let sd : Int × List Char :=
    match t with
    | '-' :: rest => (-1, rest)
    | '+' :: rest => (1, rest)
    | _ => (1, t)
  if sd.2.isEmpty then Option.none
  else if sd.2.all Char.isDigit then
    some (sd.1 * ((sd.2.foldl (fun n c => n * 10 + (c.toNat - '0'.toNat)) 0 : Nat) : Int))
  else Option.none

/-- Python `int(v)`: ints unchanged, bools to 0/1, strings parsed; `none`
models the raised `TypeError`/`ValueError` for everything else. -/
def pyToInt : PyVal → Option Int
  | .int n => some n
  | .bool b => some (if b then 1 else 0)
  | .str s => parseInt s
  | _ => Option.none

/-- `_norm_str` (zabbix_setup_config.py:58-63): `None` stays `None`, strings
are stripped and empty results become `None`, other values are stringified
then stripped. -/
def normStr : PyVal → Option String
  | .none => Option.none
  | .str s => let t := pyStrip s; if t = "" then Option.none else some t
  | v => let t := pyStrip (pyStr v); if t = "" then Option.none else some t

/-- `_norm_str` applied to an optional raw string attribute
(`getattr(obj, "description", None)` etc.). -/
def normStrS : Option String → Option String
  | Option.none => Option.none
  | some s => normStr (.str s)

/-- `_is_true` (zabbix_setup_config.py:65-69). -/
def isTrue : PyVal → Bool
  | .bool b => b
  | .int n => n = 1
  | .str s => strLower (pyStrip s) ∈ ["true", "1", "yes", "y", "on"]
  | _ => false

theorem dGet_dSet_same (m : PyDict) (k : String) (v : PyVal) :
    dGet (dSet m k v) k = some v := by
  induction m with
  | nil => simp [dSet, dGet]
  | cons kv tl ih =>
    by_cases hk : kv.1 = k
    · simp [dSet, dGet, hk]
    · simp [dSet, dGet, hk, ih]

theorem dGet_dSet_ne (m : PyDict) (k k' : String) (v : PyVal) (h : k ≠ k') :
    dGet (dSet m k v) k' = dGet m k' := by
  induction m with
  | nil => simp [dSet, dGet, h]
  | cons kv tl ih =>
    by_cases hk : kv.1 = k
    · simp [dSet, dGet, hk, h, ih]
    · by_cases hk' : kv.1 = k'
      · simp [dSet, dGet, hk, hk', Ne.symm h]
      · simp [dSet, dGet, hk, hk', ih]

theorem dGetD_dSet_same (m : PyDict) (k : String) (v : PyVal) :
    dGetD (dSet m k v) k = v := by
  simp [dGetD, dGet_dSet_same]

theorem dGetD_dSet_ne (m : PyDict) (k k' : String) (v : PyVal) (h : k ≠ k') :
    dGetD (dSet m k v) k' = dGetD m k' := by
  simp [dGetD, dGet_dSet_ne m k k' v h]

/-- `pat` is a prefix of the second list (character-wise). -/
def listPrefix : List Char → List Char → Bool
  | [], _ => true
  | _ :: _, [] => false
  | a :: as, b :: bs => a = b && listPrefix as bs

/-- `pat` occurs as a contiguous sublist. -/
def hasSub (pat : List Char) : List Char → Bool
  | [] => pat.isEmpty
  | c :: tl => listPrefix pat (c :: tl) || hasSub pat tl

/-- Python `pat in s` on strings (substring test). -/
def containsSub (s pat : String) : Bool :=
  hasSub pat.toList s.toList

/- ---------- module-level key tables (zabbix_setup_config.py:12-26) ---------- -/

def NAME_KEYS : List String := ["template_name", "name", "template"]

def ID_KEYS : List String := ["template_id", "id", "zabbix_template_id"]

def IFACE_KEYS : List String := ["template_interface_id", "iface_id", "interface_id"]

def JSON_CONTAINERS : List String := ["data", "payload", "attributes", "values"]

def PLATFORM_FIELD_NAMES : List String := ["platform", "platforms"]

def PLATFORM_JSON_KEYS : List String :=
  ["platform", "platforms",
   "platform_id", "platform_ids", "platform_pk", "platform_pks",
   "platform_name", "platform_names", "platform_slug", "platform_slugs"]

/- ---------- reflected catalog rows ---------- -/

/-- A row of the dynamically-shaped catalog table, seen reflectively: just a
bag of named attributes (`hasattr`/`getattr`). -/
structure Row where
  attrs : List (String × PyVal)

/-- Python `hasattr(row, k)`. -/
def rowHas (r : Row) (k : String) : Bool :=
  dHas r.attrs k

/-- Python `getattr(row, k, None)`. -/
def rowGet (r : Row) (k : String) : PyVal :=
  dGetD r.attrs k

/-- `_get_attr_or_json`, first loop (zabbix_setup_config.py:96-100): return
the first key bound to a non-`None`, non-`""` direct attribute. -/
def attrScan (row : Row) : List String → Option PyVal
  | [] => Option.none
  | k :: ks =>
    if rowHas row k && !pyNoneOrEmpty (rowGet row k) then some (rowGet row k)
    else attrScan row ks

/-- `_get_attr_or_json`, JSON loop (zabbix_setup_config.py:105-107): first key
present in the container dict with a non-`None`, non-`""` value. -/
def dictScan (blob : PyDict) : List String → Option PyVal
  | [] => Option.none
  | k :: ks =>
    if dHas blob k && !pyNoneOrEmpty (dGetD blob k) then some (dGetD blob k)
    else dictScan blob ks

/-- `_get_attr_or_json` (zabbix_setup_config.py:94-108). -/
def getAttrOrJson (row : Row) (keys : List String) (jsonName : Option String) : PyVal :=
  match attrScan row keys with
  | some v => v
  | Option.none =>
    match jsonName with
    | some jn =>
      if rowHas row jn then
        match rowGet row jn with
        | .dict blob =>
          match dictScan blob keys with
          | some v => v
          | Option.none => .none
        | _ => .none
      else .none
    | Option.none => .none

/- ---------- platform extraction (zabbix_setup_config.py:111-180) ---------- -/

/-- A row of the host application's Platform table. -/
structure PlatformRec where
  pk : Int
  name : String
  slug : String

/-- `pks.add(p)` on the accumulated set, modelled as an insertion-ordered
duplicate-free list (the scripts only use membership and size of the set,
never its order). -/
def addPk (pks : List Int) (p : Int) : List Int :=
  if p ∈ pks then pks else pks ++ [p]

/-- `Platform.objects.filter(name__iexact=s).first() or
filter(slug__iexact=s).first()` (zabbix_setup_config.py:143). -/
def platByNameOrSlug (platforms : List PlatformRec) (s : String) : Option PlatformRec :=
  match platforms.find? (fun p => strLower p.name == strLower s) with
  | some p => some p
  | Option.none => platforms.find? (fun p => strLower p.slug == strLower s)

/-- `add_by_name_or_slug` (zabbix_setup_config.py:141-147). -/
def addByNameOrSlug (platforms : List PlatformRec) (pks : List Int) (s : String) : List Int :=
  match platByNameOrSlug platforms s with
  | some p => addPk pks p.pk
  | Option.none => pks

/-- The FK/M2M relation cases (zabbix_setup_config.py:115-130): a value with
`.pk` contributes its truthy pk, a manager contributes every truthy member
pk; anything else (including `None` for a null FK) is skipped. -/
def pksFromRel (pks : List Int) (v : PyVal) : List Int :=
  match v with
  | .fk (some p) => if p ≠ 0 then addPk pks p else pks
  | .fk Option.none => pks
  | .m2m ps => ps.foldl (fun a p => if p ≠ 0 then addPk a p else a) pks
  | _ => pks

/-- `for nk in ("name", "slug", "label"): ...` fallback inside the JSON dict
case (zabbix_setup_config.py:161-163 and 175-178). -/
def nameSlugFallback (platforms : List PlatformRec) (pks : List Int) (d : PyDict) : List Int :=
  match ["name", "slug", "label"].find? (fun nk => dHas d nk && pyTruthy (dGetD d nk)) with
  | some nk => addByNameOrSlug platforms pks (pyStr (dGetD d nk))
  | Option.none => pks

/-- One JSON item (zabbix_setup_config.py:150-163; the same cases serve the
scalar top-level values of lines 165-178).  Note `isinstance(item, int)` is
satisfied by Python bools, and no truthiness test guards these adds. -/
def pkFromJsonItem (platforms : List PlatformRec) (pks : List Int) (item : PyVal) : List Int :=
  match item with
  | .int n => addPk pks n
  | .bool b => addPk pks (if b then 1 else 0)
  | .str s =>
    match parseInt s with
    | some n => addPk pks n
    | Option.none => addByNameOrSlug platforms pks s
  | .dict d =>
    let pid := if pyTruthy (dGetD d "id") then dGetD d "id" else dGetD d "pk"
    match pid with
    | .none => pks
    | _ =>
      match pyToInt pid with
      | some n => addPk pks n
      | Option.none => nameSlugFallback platforms pks d
  | _ => pks

/-- A top-level JSON value under one of `PLATFORM_JSON_KEYS`. -/
def pksFromJsonVal (platforms : List PlatformRec) (pks : List Int) (val : PyVal) : List Int :=
  match val with
  | .list items => items.foldl (pkFromJsonItem platforms) pks
  | v => pkFromJsonItem platforms pks v

/-- `_platform_pks_from_row` (zabbix_setup_config.py:111-180). -/
def platformPksFromRow (platforms : List PlatformRec) (row : Row) (jsonName : Option String) :
    List Int :=
  let pks := PLATFORM_FIELD_NAMES.foldl
    (fun a f => if rowHas row f then pksFromRel a (rowGet row f) else a) []
  match jsonName with
  | some jn =>
    if rowHas row jn then
      match rowGet row jn with
      | .dict blob =>
        PLATFORM_JSON_KEYS.foldl
          (fun a key => if dHas blob key then pksFromJsonVal platforms a (dGetD blob key) else a)
          pks
      | _ => pks
    else pks
  | Option.none => pks

/- ---------- catalog model discovery (zabbix_setup_config.py:183-230) ---------- -/

/-- A candidate model class from the app registry, seen reflectively. -/
structure Model where
  appLabel : String
  name : String
  /-- names of concrete fields (`f.name` for fields with an `attname`) -/
  fieldNames : List String
  /-- further class attributes visible to `hasattr(Model, _)` beyond the
  concrete fields (the fallback loop only matters when no candidate is a
  concrete field) -/
  classAttrs : List String
  /-- `Model.objects.all()` -/
  rows : List Row

/-- `_json_container_name` (zabbix_setup_config.py:84-92). -/
def jsonContainerName (M : Model) : Option String :=
  match JSON_CONTAINERS.find? (fun c => M.fieldNames.contains c) with
  | some c => some c
  | Option.none => JSON_CONTAINERS.find? (fun c => M.classAttrs.contains c)

/-- The normalized template name of a catalog row
(zabbix_setup_config.py:198 and 251). -/
def rowName (jn : Option String) (row : Row) : Option String :=
  normStr (getAttrOrJson row NAME_KEYS jn)

/-- `_model_sample_score` (zabbix_setup_config.py:183-211): sample up to 200
rows, count rows with a usable name and id and rows yielding platform pks;
score `plat_rows * 1000 + plat_total * 10 + valid`.  (The guarded queryset
access cannot fail in the model, so the `-1` branch is unreachable.) -/
def modelSampleScore (platforms : List PlatformRec) (M : Model) : Int × Option String :=
  let jn := jsonContainerName M
  let stats := (M.rows.take 200).foldl
    (fun (acc : Nat × Nat × Nat) row =>
      let nm := rowName jn row
      let tid := getAttrOrJson row ID_KEYS jn
      let v := if nm.isSome && !pyNoneOrEmpty tid then acc.1 + 1 else acc.1
      let pks := platformPksFromRow platforms row jn
      if pks.isEmpty then (v, acc.2.1, acc.2.2)
      else (v, acc.2.1 + 1, acc.2.2 + pks.length))
    (0, 0, 0)
  (((stats.2.1 * 1000 + stats.2.2 * 10 + stats.1 : Nat) : Int), jn)

/-- `_pick_catalog_model` (zabbix_setup_config.py:213-230): scan the app
registry in order, keep only models of app `netbox_custom_objects` whose
class name does not contain `customobjecttype`, and retain the first model
attaining the strictly best score (start score `-1`). -/
def pickCatalogModel (registry : List Model) (platforms : List PlatformRec) :
    Option (Model × Option String) :=
  (registry.foldl
    (fun (best : Option (Model × Option String) × Int) M =>
      if strLower M.appLabel ≠ "netbox_custom_objects" then best
      else if containsSub (strLower M.name) "customobjecttype" then best
      else
        let sc := modelSampleScore platforms M
        if sc.1 > best.2 then (some (M, sc.2), sc.1) else best)
    (Option.none, -1)).1

/- ---------- catalog loading (zabbix_setup_config.py:232-283) ---------- -/

/-- Lookup in an association list keyed by `Int` (the `by_platform` dict). -/
def iGet {β : Type} : List (Int × β) → Int → Option β
  | [], _ => Option.none
  | kv :: tl, k => if kv.1 = k then some kv.2 else iGet tl k

/-- The three lookup maps built by `_load_catalog`. -/
structure Catalog where
  name_to_id : PyDict
  name_to_iface : Option PyDict
  by_platform : List (Int × (String × PyVal × PyVal))

/-- The template id of a catalog row, after the opportunistic int cast
(zabbix_setup_config.py:256-259). -/
def rowTid (jn : Option String) (row : Row) : PyVal :=
  let t := getAttrOrJson row ID_KEYS jn
  match pyToInt t with
  | some n => .int n
  | Option.none => t

/-- The interface id of a catalog row: cast to int only when not `None`/`""`
(zabbix_setup_config.py:262-267). -/
def rowIid (jn : Option String) (row : Row) : PyVal :=
  let i := getAttrOrJson row IFACE_KEYS jn
  if pyNoneOrEmpty i then i
  else
    match pyToInt i with
    | some n => .int n
    | Option.none => i

/-- Accumulator of the `_load_catalog` row loop. -/
structure CatAcc where
  name_to_id : PyDict
  name_to_iface : PyDict
  has_iface_any : Bool
  by_platform : List (Int × (String × PyVal × PyVal))

/-- One iteration of the `_load_catalog` row loop
(zabbix_setup_config.py:249-274): rows without a usable name are skipped
entirely; `name_to_id`/`name_to_iface` entries are overwritten (dict
assignment), while `by_platform` entries are only added for pks not yet
present. -/
def scanRow (platforms : List PlatformRec) (jn : Option String) (acc : CatAcc) (row : Row) :
    CatAcc :=
  match rowName jn row with
  | Option.none => acc
  | some nm =>
    let key := strLower nm
    let tid := rowTid jn row
    let hifa := if pyNoneOrEmpty (getAttrOrJson row IFACE_KEYS jn) then acc.has_iface_any else true
    let iid := rowIid jn row
    let bp := (platformPksFromRow platforms row jn).foldl
      (fun m pk => if (iGet m pk).isSome then m else m ++ [(pk, (nm, tid, iid))])
      acc.by_platform
    ⟨dSet acc.name_to_id key tid, dSet acc.name_to_iface key iid, hifa, bp⟩

/-- The map-building part of `_load_catalog` (zabbix_setup_config.py:244-283),
given the chosen entries model's rows and JSON container name. -/
def loadCatalogMaps (platforms : List PlatformRec) (rows : List Row) (jn : Option String) :
    Catalog :=
  let acc := rows.foldl (scanRow platforms jn) ⟨[], [], false, []⟩
  { name_to_id := acc.name_to_id
    name_to_iface := if acc.has_iface_any then some acc.name_to_iface else Option.none
    by_platform := acc.by_platform }

/-- `_load_catalog` (zabbix_setup_config.py:232-283): `none` models the
`RuntimeError` raised when no entries model is located. -/
def loadCatalog (registry : List Model) (platforms : List PlatformRec) : Option Catalog :=
  match pickCatalogModel registry platforms with
  | Option.none => Option.none
  | some (M, jn) => some (loadCatalogMaps platforms M.rows jn)

/- ---------- inventory records ---------- -/

/-- A role record: only its `custom_field_data` is read. -/
structure Role where
  cfd : PyDict

/-- A device or virtual machine.  `platform` stands for the platform FK pk:
Django keeps `obj.platform_id` and `obj.platform.pk` equal, and `site` stands
for the device's `site_id` / the VM's resolved site id (the
`site`/`location.site`/`cluster.site` chain of lines 386-390 and 414-418). -/
structure Inv where
  id : Int
  status : Option String
  primary_ip4_id : Option Int
  platform : Option Int
  name : Option String
  site : Option Int
  description : Option String
  comments : Option String
  role : Option Role
  cfd : PyDict

/-- `_has_primary_v4` (zabbix_setup_config.py:74-75). -/
def hasPrimaryV4 (o : Inv) : Bool :=
  o.primary_ip4_id.isSome

/-- `_desc` (zabbix_setup_config.py:77-78): normalized description, else
normalized comments (`or` picks the first non-`None` result). -/
def desc (o : Inv) : Option String :=
  match normStrS o.description with
  | some s => some s
  | Option.none => normStrS o.comments

/-- `_ensure_sla` (zabbix_setup_config.py:286-300); the returned Bool is
`added`.  The counters are log-only and not modelled. -/
def ensureSla (obj : Inv) (cf : PyDict) (overwrite : Bool) : PyDict × Bool :=
  let cur := normStr (dGetD cf "sla_report_code")
  if cur.isSome && !overwrite then (cf, false)
  else
    match obj.role with
    | Option.none => (cf, false)
    | some role =>
      match normStr (dGetD role.cfd "sla_report_code") with
      | Option.none => (cf, false)
      | some code => (dSet cf "sla_report_code" (.str code), true)

/-- The checklist of `_ready_eval` (zabbix_setup_config.py:303-311), in source
order; a condition that fails contributes its message. -/
def readyMissing (obj : Inv) (cf : PyDict) : List String :=
  (if obj.status == some "active" then [] else ["status=active"]) ++
  (if hasPrimaryV4 obj then [] else ["primary IPv4"]) ++
  (if obj.platform.isSome then [] else ["platform"]) ++
  (if isTrue (dGetD cf "mon_req") then [] else ["mon_req=True"]) ++
  (if (normStr (dGetD cf "zabbix_template_name")).isSome then [] else ["zabbix_template set"]) ++
  (if (normStr (dGetD cf "environment")).isSome then [] else ["environment set"]) ++
  (if (desc obj).isSome then [] else ["description set"]) ++
  (if (normStr (dGetD cf "sla_report_code")).isSome then [] else ["SLA code set"])

/-- `_ready_eval` (zabbix_setup_config.py:302-316): writes `zabbix_status`
(a bool) and `monitoring_status` into the dict and returns `meets`. -/
def readyEval (obj : Inv) (cf : PyDict) : Bool × PyDict :=
  let missing := readyMissing obj cf
  let meets := missing.isEmpty
  let cf1 := dSet cf "zabbix_status" (.bool meets)
  let ms :=
    if meets then PyVal.str "In-progress"
    else
      let v := dGetD cf1 "monitoring_status"
      if pyTruthy v then v else PyVal.str "Missing Required Fields"
  (meets, dSet cf1 "monitoring_status" ms)

/-- One item of `_parse_extras`' list branch (zabbix_setup_config.py:323-330):
the stripped string; `none` models the `AttributeError` raised when the dict
case finds a truthy non-string under value/label/name. -/
def parseExtraItem : PyVal → Option String
  | .str s => some (pyStrip s)
  | .dict d =>
    match [dGetD d "value", dGetD d "label", dGetD d "name"].find? pyTruthy with
    | some (.str s) => some (pyStrip s)
    | some _ => Option.none
    | Option.none => some ""
  | v => some (pyStrip (pyStr v))

/-- Python `s.split(",")`, written over the character list. -/
def splitCommaAux : List Char → List Char → List String
  | [], cur => [String.mk cur.reverse]
  | c :: tl, cur =>
    if c = ',' then String.mk cur.reverse :: splitCommaAux tl []
    else splitCommaAux tl (c :: cur)

def splitComma (s : String) : List String :=
  splitCommaAux s.data []

/-- `_parse_extras` (zabbix_setup_config.py:319-335); Python tuples fall under
the `list` case.  `none` models a raised exception. -/
def parseExtras : PyVal → Option (List String)
  | .none => some []
  | .list xs =>
    xs.foldl
      (fun acc item =>
        match acc, parseExtraItem item with
        | some l, some s => some (if s = "" then l else l ++ [s])
        | _, _ => Option.none)
      (some [])
  | .str s => ((splitComma s).map pyStrip).filter (fun p => p ≠ "") |> some
  | v => let s := pyStrip (pyStr v); some (if s = "" then [] else [s])

/- ---------- run, step 3 (zabbix_setup_config.py:434-509) ---------- -/

/-- `needs_write` (zabbix_setup_config.py:450-452). -/
def needsWrite (overwrite : Bool) (old new : PyVal) : Bool :=
  overwrite || (pyBlank old && !pyBlank new)

def optStrVal : Option String → PyVal
  | Option.none => .none
  | some s => .str s

/-- The primary-template selection (zabbix_setup_config.py:435-448):
by platform pk, with fallback to the current normalized name when that name
is a key of `name_to_id`. -/
def primarySelect (cat : Catalog) (cf : PyDict) (obj : Inv) : Option (String × PyVal × PyVal) :=
  match obj.platform.bind (iGet cat.by_platform) with
  | some t => some t
  | Option.none =>
    match normStr (dGetD cf "zabbix_template_name") with
    | some cur =>
      if dHas cat.name_to_id (strLower cur) then
        some (cur, dGetD cat.name_to_id (strLower cur),
          match cat.name_to_iface with
          | some m => dGetD m (strLower cur)
          | Option.none => .none)
      else Option.none
    | Option.none => Option.none

/-- The name list `[primary] + extras` with case-insensitive first-occurrence
dedup (zabbix_setup_config.py:470-477); the accumulator pairs the `seen` set
with the kept names. -/
def namesAccum (primaryName : Option String) (extras : List String) : List String :=
  let init : List String × List String :=
    match primaryName with
    | some pn => if pn ≠ "" then ([strLower pn], [pn]) else ([], [])
    | Option.none => ([], [])
  (extras.foldl
    (fun (acc : List String × List String) n =>
      let k := strLower (pyStrip n)
      if k ≠ "" && !acc.1.contains k then (acc.1 ++ [k], acc.2 ++ [n]) else acc)
    init).2

/-- The id list (zabbix_setup_config.py:479-484): names whose
`name_to_id.get` yields `None` (absent, or present with value `None`) are
skipped. -/
def resolveIds (ntid : PyDict) (names : List String) : List PyVal :=
  names.foldl
    (fun ids n =>
      match dGetD ntid (strLower (pyStrip n)) with
      | .none => ids
      | t => ids ++ [t])
    []

def joinComma : List String → String
  | [] => ""
  | [s] => s
  | s :: tl => s ++ "," ++ joinComma tl

/-- `new_csv` (zabbix_setup_config.py:488). -/
def newCsv (ntid : PyDict) (primaryName : Option String) (extras : List String) : String :=
  joinComma ((resolveIds ntid (namesAccum primaryName extras)).map pyStr)

/-- Step 3.0's conditional writes of `zabbix_template_name` and
`zabbix_template_int_id` (zabbix_setup_config.py:454-465), given the selected
primary triple.  `cur_name`/`cur_int` are read before any write, as in the
source. -/
def templateSyncCf (cat : Catalog) (overwrite : Bool)
    (primary : Option (String × PyVal × PyVal)) (cf0 : PyDict) : PyDict :=
  match primary with
  | some (pn, _pid, pif) =>
    let cfa :=
      if needsWrite overwrite (optStrVal (normStr (dGetD cf0 "zabbix_template_name")))
          (.str pn) then
        dSet cf0 "zabbix_template_name" (.str pn)
      else cf0
    if cat.name_to_iface.isSome &&
        needsWrite overwrite (dGetD cf0 "zabbix_template_int_id") pif then
      dSet cfa "zabbix_template_int_id" pif
    else cfa
  | Option.none => cf0

/-- The gated `zabbix_template_id` CSV write (zabbix_setup_config.py:488-498). -/
def csvStepCf (ntid : PyDict) (overwrite : Bool) (primaryName : Option String)
    (extras : List String) (cf1 : PyDict) : PyDict :=
  let csv := newCsv ntid primaryName extras
  let cur_csv := (normStr (dGetD cf1 "zabbix_template_id")).getD ""
  if (overwrite || (cur_csv == "" && csv ≠ "")) && cur_csv ≠ csv then
    dSet cf1 "zabbix_template_id" (.str csv)
  else cf1

/-- Steps 3.0-3.1 of `run` (zabbix_setup_config.py:434-503): primary template
sync, the `zabbix_template_id` CSV, then SLA.  `none` models an exception
from `_parse_extras`. -/
def step3 (cat : Catalog) (overwrite : Bool) (obj : Inv) (cf0 : PyDict) : Option PyDict :=
  let primary := primarySelect cat cf0 obj
  let cf1 := templateSyncCf cat overwrite primary cf0
  match parseExtras (dGetD cf1 "zabbix_extra_templates") with
  | Option.none => Option.none
  | some extras =>
    let cf2 := csvStepCf cat.name_to_id overwrite (primary.map (fun t => t.1)) extras cf1
    some (ensureSla obj cf2 overwrite).1

/-- The step-1 gate (zabbix_setup_config.py:399): a truthy `mon_req` and
status `"active"`. -/
def step1Gate (obj : Inv) (cf : PyDict) : Bool :=
  isTrue (dGetD cf "mon_req") && obj.status == some "active"

/-- The step-2 missing-field list (zabbix_setup_config.py:411-422). -/
def step2Missing (obj : Inv) (cf : PyDict) : List String :=
  (if obj.platform.isSome then [] else ["platform"]) ++
  (if hasPrimaryV4 obj then [] else ["primary IPv4"]) ++
  (if obj.site.isSome then [] else ["site"]) ++
  (if (normStr (dGetD cf "environment")).isSome then [] else ["environment"]) ++
  (if (normStrS obj.name).isSome then [] else ["name"]) ++
  (if (desc obj).isSome then [] else ["description"])

/-- The per-record body of `run`'s inventory loop
(zabbix_setup_config.py:396-509): step-1 gate, step-2 gate, step 3 and the
final readiness evaluation.  All dict mutations happen on the local copy;
the record's stored `custom_field_data` changes only when `commit` is set
(every `obj.save()` is guarded by `if commit:`).  `none` models an
exception. -/
def processRecord (cat : Catalog) (overwrite commit : Bool) (obj : Inv) : Option Inv :=
  let cf := obj.cfd
  if !step1Gate obj cf then
    let cf1 := dSet (dSet cf "mon_req" (.bool false)) "monitoring_status"
      (.str "Missing Required Fields")
    let r := readyEval obj cf1
    some (if commit then { obj with cfd := r.2 } else obj)
  else
    if !(step2Missing obj cf).isEmpty then
      let cf1 := dSet cf "monitoring_status" (.str "Missing Required Fields")
      let r := readyEval obj cf1
      some (if commit then { obj with cfd := r.2 } else obj)
    else
      match step3 cat overwrite obj cf with
      | Option.none => Option.none
      | some cf3 =>
        let r := readyEval obj cf3
        some (if commit then { obj with cfd := r.2 } else obj)

/- ---------- run (zabbix_setup_config.py:347-519) ---------- -/

/-- Observable events of a run, for the temporal claims: the catalog maps
are built once, and each processed record is a visit carrying the catalog
in use at that record. -/
inductive Event where
  | failLog (msg : String)
  | built (cat : Catalog)
  | visit (kind : String) (id : Int) (cat : Catalog)

/-- The script's input form. -/
structure RunData where
  include_devices : Bool
  include_vms : Bool
  limit_site : Option Int
  overwrite_all_mapped_fields : Bool
  dry_run : Bool

/-- The database state touched by the scripts.  `zabbixStatusCF` is the type
of the `zabbix_status` custom field when that field exists. -/
structure DB where
  zabbixStatusCF : Option String
  registry : List Model
  platforms : List PlatformRec
  devices : List Inv
  vms : List Inv

structure RunOut where
  db : DB
  events : List Event

/-- One stream of the inventory loop: records failing `sel` (the site
DB-filter for devices, the soft site filter for VMs, or an excluded stream)
are left untouched and not visited.  A crashing record (`none`) aborts the
stream. -/
def foldRecords (cat : Catalog) (ow commit : Bool) (kind : String) (sel : Inv → Bool) :
    List Inv → Option (List Inv) × List Event
  | [] => (some [], [])
  | o :: tl =>
    if sel o then
      match processRecord cat ow commit o with
      | Option.none => (Option.none, [Event.visit kind o.id cat])
      | some o' =>
        let r := foldRecords cat ow commit kind sel tl
        (r.1.map (fun l => o' :: l), Event.visit kind o.id cat :: r.2)
    else
      let r := foldRecords cat ow commit kind sel tl
      (r.1.map (fun l => o :: l), r.2)

/-- `run` (zabbix_setup_config.py:347-519).  `commit` is
`commit and not dry_run`; the `zabbix_status` custom-field check and the
catalog load happen before the inventory loop; the whole loop runs inside
`transaction.atomic()`, so an exception (a crashed stream) rolls every save
back and the stored records revert to their input state. -/
def run (data : RunData) (commit0 : Bool) (db : DB) : RunOut :=
  let commit := commit0 && !data.dry_run
  match db.zabbixStatusCF with
  | Option.none =>
    ⟨db, [.failLog "Custom field zabbix_status (boolean) not found. Create it for Device & VM first."]⟩
  | some ty =>
    if ty ≠ "boolean" then
      ⟨db, [.failLog "Custom field zabbix_status exists with an unexpected type."]⟩
    else
      match loadCatalog db.registry db.platforms with
      | Option.none =>
        ⟨db, [.failLog "Could not locate a Custom Objects entries model with usable template data."]⟩
      | some cat =>
        let ow := data.overwrite_all_mapped_fields
        let devSel : Inv → Bool := fun d =>
          data.include_devices &&
            (match data.limit_site with
             | some l => d.site == some l
             | Option.none => true)
        let vmSel : Inv → Bool := fun v =>
          data.include_vms &&
            (match data.limit_site with
             | some l => v.site == some l
             | Option.none => true)
        let rd := foldRecords cat ow commit "Device" devSel db.devices
        match rd.1 with
        | Option.none => ⟨db, .built cat :: rd.2⟩
        | some devs =>
          let rv := foldRecords cat ow commit "VM" vmSel db.vms
          match rv.1 with
          | Option.none => ⟨db, .built cat :: (rd.2 ++ rv.2)⟩
          | some vms => ⟨{ db with devices := devs, vms := vms }, .built cat :: (rd.2 ++ rv.2)⟩

/- ---------- zb_sync_prep.py ---------- -/

/-- Python `d.get(k, dflt)`. -/
def dGetDef (m : PyDict) (k : String) (dflt : PyVal) : PyVal :=
  (dGet m k).getD dflt

/-- The body of zb_sync_prep.py's device loop (lines 4-19): devices without a
truthy `mon_req` are untouched; otherwise `sla_code` is set to the stripped
role code, where a missing role or missing code yields `""`.  `none` models
the `AttributeError` from `.strip()` on a truthy non-string code. -/
def zbSyncPrepDevice (d : Inv) : Option Inv :=
  let cf := d.cfd
  let mon_req := pyTruthy (dGetDef cf "mon_req" (.bool false))
  if !mon_req then some d
  else
    let role_cf := match d.role with | some r => r.cfd | Option.none => []
    let v := dGetD role_cf "sla_report_code"
    let codeOpt : Option String :=
      if !pyTruthy v then some ""
      else match v with
           | .str s => some (pyStrip s)
           | _ => Option.none
    match codeOpt with
    | Option.none => Option.none
    | some code =>
      if pyEqStr (dGetD cf "sla_code") code then some d
      else some { d with cfd := dSet cf "sla_code" (.str code) }

/-- The whole zb_sync_prep.py loop: saves happen record by record with no
transaction, so a crash keeps earlier updates and leaves the crashing record
and the rest untouched (the Bool is `true` when the loop finished). -/
def zbSyncPrepList : List Inv → List Inv × Bool
  | [] => ([], true)
  | d :: tl =>
    match zbSyncPrepDevice d with
    | Option.none => (d :: tl, false)
    | some d' =>
      let r := zbSyncPrepList tl
      (d' :: r.1, r.2)

/- ==================== theorems ==================== -/

theorem isEmpty_ite_bool (b : Bool) (s : String) :
    (if b then ([] : List String) else [s]).isEmpty = b := by
  cases b <;> simp

theorem isEmpty_append (l l' : List String) :
    (l ++ l').isEmpty = (l.isEmpty && l'.isEmpty) := by
  cases l <;> simp

theorem readyEval_status (obj : Inv) (cf : PyDict) :
    dGetD (readyEval obj cf).2 "zabbix_status" = PyVal.bool (readyMissing obj cf).isEmpty := by
  simp only [readyEval]
  rw [dGetD_dSet_ne _ _ _ _ (by decide), dGetD_dSet_same]

/-- C1: `_ready_eval` sets the custom field `zabbix_status` to `True` exactly
when the eight checklist conditions hold on the record and the custom-field
dict it is handed (status `"active"`, primary IPv4 assigned, platform set,
`mon_req` truthy, `zabbix_template_name`, `environment`, description-or-
comments and `sla_report_code` non-blank), and to `False` otherwise: the
field is always written with the boolean conjunction of the eight checks. -/
theorem ready_eval_sets_zabbix_status_iff (obj : Inv) (cf : PyDict) :
    dGetD (readyEval obj cf).2 "zabbix_status" =
      PyVal.bool ((obj.status == some "active") && hasPrimaryV4 obj && obj.platform.isSome &&
        isTrue (dGetD cf "mon_req") && (normStr (dGetD cf "zabbix_template_name")).isSome &&
        (normStr (dGetD cf "environment")).isSome && (desc obj).isSome &&
        (normStr (dGetD cf "sla_report_code")).isSome) := by
  rw [readyEval_status]
  congr 1
  unfold readyMissing
  simp only [isEmpty_append, isEmpty_ite_bool]

theorem processRecord_commit_false (cat : Catalog) (ow : Bool) (obj : Inv) :
    processRecord cat ow false obj = some obj ∨
    processRecord cat ow false obj = Option.none := by
  rcases h : step3 cat ow obj obj.cfd with _ | cf3 <;>
    simp only [processRecord, h, Bool.false_eq_true, if_false] <;>
    split_ifs <;> simp

theorem foldRecords_commit_false (cat : Catalog) (ow : Bool) (kind : String)
    (sel : Inv → Bool) (l l' : List Inv)
    (h : (foldRecords cat ow false kind sel l).1 = some l') : l' = l := by
  induction l generalizing l' with
  | nil =>
    simp only [foldRecords] at h
    injection h with h
    exact h.symm
  | cons o tl ih =>
    unfold foldRecords at h
    by_cases hs : sel o
    · rw [if_pos hs] at h
      rcases processRecord_commit_false cat ow o with hp | hp <;> rw [hp] at h
      · simp at h
        rcases h with ⟨tl', htl, hcons⟩
        subst hcons
        rw [ih tl' htl]
      · simp at h
    · rw [if_neg hs] at h
      simp at h
      rcases h with ⟨tl', htl, hcons⟩
      subst hcons
      rw [ih tl' htl]

/-- C2: with `dry_run` set (or `commit` false), the run leaves the database
untouched: every device's and VM's `custom_field_data` (indeed the whole DB
state) equals its value before the run.  In the source every `obj.save()` is
guarded by `if commit:` and the transaction is additionally rolled back. -/
theorem run_dry_run_leaves_db_unchanged (data : RunData) (commit0 : Bool) (db : DB)
    (h : data.dry_run = true ∨ commit0 = false) :
    (run data commit0 db).db = db := by
  have hc : (commit0 && !data.dry_run) = false := by
    rcases h with h | h <;> simp [h]
  obtain ⟨zcf, reg, plats, devs0, vms0⟩ := db
  unfold run
  rw [hc]
  rcases zcf with _ | ty
  · rfl
  · simp only
    split
    · rfl
    · rcases hcat : loadCatalog reg plats with _ | cat
      · rfl
      · simp only
        rcases hd : (foldRecords cat data.overwrite_all_mapped_fields false "Device"
            (fun d => data.include_devices &&
              match data.limit_site with
              | some l => d.site == some l
              | Option.none => true) devs0).1 with _ | devs
        · rfl
        · rcases hv : (foldRecords cat data.overwrite_all_mapped_fields false "VM"
              (fun v => data.include_vms &&
                match data.limit_site with
                | some l => v.site == some l
                | Option.none => true) vms0).1 with _ | vms
          · rfl
          · have h1 := foldRecords_commit_false _ _ _ _ _ _ hd
            have h2 := foldRecords_commit_false _ _ _ _ _ _ hv
            subst h1; subst h2
            rfl

/- ---------- concrete instances used by witnesses and counterexamples ---------- -/

/-- A monitored, active device whose `zabbix_template_name` holds the
whitespace-only string `" "`. -/
def exObj : Inv :=
  { id := 1, status := some "active", primary_ip4_id := some 5, platform := some 1,
    name := some "dev1", site := some 2, description := some "a device",
    comments := Option.none, role := Option.none,
    cfd := [("mon_req", PyVal.bool true), ("zabbix_template_name", PyVal.str " "),
            ("environment", PyVal.str "prod"), ("sla_report_code", PyVal.str "S")] }

/-- A catalog row with a usable name, id and platform link. -/
def exRow : Row :=
  ⟨[("template_name", PyVal.str "A"), ("template_id", PyVal.int 1),
    ("platform", PyVal.fk (some 7))]⟩

/-- A registry entry of the custom-objects app holding `exRow`. -/
def exModel : Model :=
  { appLabel := "netbox_custom_objects", name := "ZabbixEntry", fieldNames := ["data"],
    classAttrs := [], rows := [exRow] }

def exDB : DB :=
  { zabbixStatusCF := some "boolean", registry := [exModel], platforms := [],
    devices := [exObj], vms := [] }

/-- A database whose app registry holds no custom-objects model at all. -/
def exEmptyDB : DB :=
  { zabbixStatusCF := some "boolean", registry := [], platforms := [],
    devices := [exObj], vms := [] }

def exDryData : RunData :=
  { include_devices := true, include_vms := true, limit_site := Option.none,
    overwrite_all_mapped_fields := false, dry_run := true }

/-- Catalog maps mapping platform pk 1 to the `Linux` template. -/
def exCat : Catalog :=
  { name_to_id := [("linux", PyVal.int 10042)], name_to_iface := Option.none,
    by_platform := [(1, ("Linux", PyVal.int 10042, PyVal.none))] }

/-- Witness: a dry run over a concrete one-device database returns it
unchanged. -/
theorem run_dry_run_leaves_db_unchanged_witness :
    (exDryData.dry_run = true ∨ true = false) ∧ (run exDryData true exDB).db = exDB :=
  ⟨Or.inl rfl, run_dry_run_leaves_db_unchanged exDryData true exDB (Or.inl rfl)⟩

/-- C7: when catalog discovery locates no Custom Objects entries model,
`_load_catalog` raises, `run` logs the failure and returns before the
inventory loop: the database is unchanged and the only event is the failure
log — in particular there is no visit to any device or VM. -/
theorem run_no_catalog_model_returns_early (data : RunData) (commit0 : Bool) (db : DB)
    (hcf : db.zabbixStatusCF = some "boolean")
    (h : pickCatalogModel db.registry db.platforms = Option.none) :
    (run data commit0 db).db = db ∧
    (run data commit0 db).events =
      [Event.failLog
        "Could not locate a Custom Objects entries model with usable template data."] := by
  unfold run loadCatalog
  rw [hcf, h]
  exact ⟨rfl, rfl⟩

/-- Witness: with an empty app registry the run fails early and leaves the
concrete database unchanged. -/
theorem run_no_catalog_model_returns_early_witness :
    (exEmptyDB.zabbixStatusCF = some "boolean" ∧
      pickCatalogModel exEmptyDB.registry exEmptyDB.platforms = Option.none) ∧
    (run exDryData true exEmptyDB).db = exEmptyDB ∧
    (run exDryData true exEmptyDB).events =
      [Event.failLog
        "Could not locate a Custom Objects entries model with usable template data."] :=
  ⟨⟨rfl, rfl⟩, run_no_catalog_model_returns_early exDryData true exEmptyDB rfl rfl⟩

/-- C4: platform is the join key: whenever the record's platform pk has an
entry in the catalog's `by_platform` map, the primary template triple
selected for the record is exactly that entry. -/
theorem primary_template_matches_platform_entry (cat : Catalog) (cf : PyDict) (obj : Inv)
    (p : Int) (t : String × PyVal × PyVal)
    (hp : obj.platform = some p) (ht : iGet cat.by_platform p = some t) :
    primarySelect cat cf obj = some t := by
  unfold primarySelect
  rw [hp]
  simp [ht]

/-- Witness: the concrete device on platform 1 receives exactly the catalog
triple stored for platform 1. -/
theorem primary_template_matches_platform_entry_witness :
    (exObj.platform = some 1 ∧
      iGet exCat.by_platform 1 = some ("Linux", PyVal.int 10042, PyVal.none)) ∧
    primarySelect exCat exObj.cfd exObj = some ("Linux", PyVal.int 10042, PyVal.none) :=
  ⟨⟨rfl, rfl⟩,
    primary_template_matches_platform_entry exCat exObj.cfd exObj 1 _ rfl rfl⟩

theorem attrScan_eq_find (row : Row) (keys : List String) :
    attrScan row keys =
      (keys.find? (fun k => rowHas row k && !pyNoneOrEmpty (rowGet row k))).map
        (rowGet row) := by
  induction keys with
  | nil => rfl
  | cons k ks ih =>
    by_cases h : (rowHas row k && !pyNoneOrEmpty (rowGet row k)) = true
    · simp [attrScan, List.find?, h]
    · have h' : (rowHas row k && !pyNoneOrEmpty (rowGet row k)) = false := by
        simpa using h
      simp [attrScan, List.find?, h', ih]

theorem dictScan_eq_find (blob : PyDict) (keys : List String) :
    dictScan blob keys =
      (keys.find? (fun k => dHas blob k && !pyNoneOrEmpty (dGetD blob k))).map
        (dGetD blob) := by
  induction keys with
  | nil => rfl
  | cons k ks ih =>
    by_cases h : (dHas blob k && !pyNoneOrEmpty (dGetD blob k)) = true
    · simp [dictScan, List.find?, h]
    · have h' : (dHas blob k && !pyNoneOrEmpty (dGetD blob k)) = false := by
        simpa using h
      simp [dictScan, List.find?, h', ih]

/-- C8: `_get_attr_or_json` returns the value of the first key (in the given
preference order) that exists as a direct attribute with a non-`None`,
non-`""` value; only when no key matches as a direct attribute does it
consult the JSON container (when named, present, and a dict), again taking
the first key present with a non-`None`, non-`""` value; otherwise `None`. -/
theorem get_attr_or_json_first_match (row : Row) (keys : List String) (jn : Option String) :
    getAttrOrJson row keys jn =
      (match keys.find? (fun k => rowHas row k && !pyNoneOrEmpty (rowGet row k)) with
       | some k => rowGet row k
       | Option.none =>
         match jn with
         | some j =>
           if rowHas row j then
             match rowGet row j with
             | .dict blob =>
               (match keys.find? (fun k => dHas blob k && !pyNoneOrEmpty (dGetD blob k)) with
                | some k => dGetD blob k
                | Option.none => PyVal.none)
             | _ => PyVal.none
           else PyVal.none
         | Option.none => PyVal.none) := by
  unfold getAttrOrJson
  rw [attrScan_eq_find]
  rcases h : keys.find? (fun k => rowHas row k && !pyNoneOrEmpty (rowGet row k)) with _ | k
  · simp only [Option.map_none']
    rcases jn with _ | j
    · rfl
    · simp only
      split
      · cases hb : rowGet row j <;> simp only
        case dict blob =>
          rw [dictScan_eq_find]
          rcases hd : keys.find? (fun k => dHas blob k && !pyNoneOrEmpty (dGetD blob k)) with _ | k
          · rfl
          · rfl
      · rfl
  · rfl

/- ---------- C3: SLA copy ---------- -/

/-- A role whose SLA code carries surrounding whitespace. -/
def exRole : Role := ⟨[("sla_report_code", PyVal.str " X ")]⟩

def exDevRole : Inv := { exObj with role := some exRole, cfd := [] }

/-- A monitored device without a role whose `sla_code` is already set. -/
def exDevNoRole : Inv :=
  { exObj with
    role := Option.none,
    cfd := [("mon_req", PyVal.bool true), ("sla_code", PyVal.str "OLD")] }

/-- `exDevNoRole` after zb_sync_prep's loop body. -/
def exDevNoRoleOut : Inv :=
  { exDevNoRole with cfd := [("mon_req", PyVal.bool true), ("sla_code", PyVal.str "")] }

theorem pyEqStr_eq (v : PyVal) (s : String) (h : pyEqStr v s = true) : v = PyVal.str s := by
  cases v <;> simp_all [pyEqStr]

theorem zbSyncPrep_no_role (d : Inv) (hrole : d.role = Option.none)
    (hmon : pyTruthy (dGetDef d.cfd "mon_req" (PyVal.bool false)) = true) :
    zbSyncPrepDevice d =
      (if pyEqStr (dGetD d.cfd "sla_code") "" = true then some d
       else some { d with cfd := dSet d.cfd "sla_code" (PyVal.str "") }) := by
  simp only [zbSyncPrepDevice, hrole]
  rw [hmon]
  rfl

/-- Counterexample to C3 as stated: (a) `_ensure_sla` writes the
whitespace-stripped string `"X"`, not the value `" X "` stored on the role;
(b) zb_sync_prep's loop overwrites the existing `sla_code` `"OLD"` of a
monitored device that has no linked role with `""` instead of leaving the
field unchanged. -/
theorem sla_copy_counterexample :
    dGetD exRole.cfd "sla_report_code" = PyVal.str " X " ∧
    dGetD (ensureSla exDevRole [] false).1 "sla_report_code" = PyVal.str "X" ∧
    PyVal.str "X" ≠ PyVal.str " X " ∧
    exDevNoRole.role = Option.none ∧
    dGetD exDevNoRole.cfd "sla_code" = PyVal.str "OLD" ∧
    (zbSyncPrepDevice exDevNoRole).map (fun d => dGetD d.cfd "sla_code") =
      some (PyVal.str "") :=
  ⟨rfl, rfl, by simp, rfl, rfl, rfl⟩

/-- C3 amended: in `_ensure_sla` a record with no linked role, or whose
role's `sla_report_code` normalizes to nothing, is left unchanged, and any
write stores the whitespace-normalized string form of the role's code; in
zb_sync_prep's loop a monitored device with no role instead gets `sla_code`
set to the empty string. -/
theorem sla_copy_amended :
    (∀ (obj : Inv) (cf : PyDict) (ow : Bool),
      (obj.role = Option.none → ensureSla obj cf ow = (cf, false)) ∧
      (∀ role, obj.role = some role →
        normStr (dGetD role.cfd "sla_report_code") = Option.none →
        ensureSla obj cf ow = (cf, false)) ∧
      ((ensureSla obj cf ow).1 ≠ cf →
        ∃ role s, obj.role = some role ∧
          normStr (dGetD role.cfd "sla_report_code") = some s ∧
          (ensureSla obj cf ow).1 = dSet cf "sla_report_code" (PyVal.str s))) ∧
    (∀ d d' : Inv, zbSyncPrepDevice d = some d' →
      pyTruthy (dGetDef d.cfd "mon_req" (PyVal.bool false)) = true →
      d.role = Option.none →
      dGetD d'.cfd "sla_code" = PyVal.str "") := by
  refine ⟨fun obj cf ow => ⟨?_, ?_, ?_⟩, ?_⟩
  · intro hrole
    simp only [ensureSla, hrole, ite_self]
  · intro role hrole hcode
    simp only [ensureSla, hrole, hcode, ite_self]
  · intro hne
    cases hg : ((normStr (dGetD cf "sla_report_code")).isSome && !ow)
    case true => exact absurd (by simp [ensureSla, hg]) hne
    case false =>
      rcases hrole : obj.role with _ | role
      · exact absurd (by simp [ensureSla, hg, hrole]) hne
      · rcases hcode : normStr (dGetD role.cfd "sla_report_code") with _ | s
        · exact absurd (by simp [ensureSla, hg, hrole, hcode]) hne
        · refine ⟨role, s, rfl, hcode, ?_⟩
          simp [ensureSla, hg, hrole, hcode]
  · intro d d' h hmon hrole
    rw [zbSyncPrep_no_role d hrole hmon] at h
    by_cases he : pyEqStr (dGetD d.cfd "sla_code") "" = true
    · rw [if_pos he] at h
      injection h with h
      subst h
      exact pyEqStr_eq _ _ he
    · rw [if_neg he] at h
      injection h with h
      subst h
      exact dGetD_dSet_same _ _ _

/-- Witness for the amended C3 theorem at concrete inputs. -/
theorem sla_copy_amended_witness :
    ensureSla exDevNoRole [] false = ([], false) ∧
    dGetD exDevNoRoleOut.cfd "sla_code" = PyVal.str "" :=
  ⟨(sla_copy_amended.1 exDevNoRole [] false).1 rfl,
    sla_copy_amended.2 exDevNoRole exDevNoRoleOut rfl rfl rfl⟩

/- ---------- C6: fill-blanks-only behaviour ---------- -/

theorem normStr_ne_some_empty (v : PyVal) : normStr v ≠ some "" := by
  cases v <;> intro h <;> simp only [normStr] at h <;>
    first
    | cases h
    | (split at h <;> simp_all)

theorem readyEval_preserves (obj : Inv) (cf : PyDict) (k : String)
    (h1 : k ≠ "zabbix_status") (h2 : k ≠ "monitoring_status") :
    dGetD (readyEval obj cf).2 k = dGetD cf k := by
  simp only [readyEval]
  rw [dGetD_dSet_ne _ _ _ _ (Ne.symm h2), dGetD_dSet_ne _ _ _ _ (Ne.symm h1)]

theorem ensureSla_preserves (obj : Inv) (cf : PyDict) (ow : Bool) (k : String)
    (h : k ≠ "sla_report_code") :
    dGetD (ensureSla obj cf ow).1 k = dGetD cf k := by
  simp only [ensureSla]
  repeat' split
  all_goals first
    | rfl
    | exact dGetD_dSet_ne _ _ _ _ (Ne.symm h)

theorem ensureSla_no_overwrite_set (obj : Inv) (cf : PyDict) (s : String)
    (hs : normStr (dGetD cf "sla_report_code") = some s) :
    ensureSla obj cf false = (cf, false) := by
  simp only [ensureSla, hs]
  rfl

theorem templateSyncCf_preserves (cat : Catalog) (ow : Bool)
    (primary : Option (String × PyVal × PyVal)) (cf0 : PyDict) (k : String)
    (h1 : k ≠ "zabbix_template_name") (h2 : k ≠ "zabbix_template_int_id") :
    dGetD (templateSyncCf cat ow primary cf0) k = dGetD cf0 k := by
  simp only [templateSyncCf]
  repeat' split
  all_goals first
    | rfl
    | rw [dGetD_dSet_ne _ _ _ _ (Ne.symm h1)]
    | rw [dGetD_dSet_ne _ _ _ _ (Ne.symm h2), dGetD_dSet_ne _ _ _ _ (Ne.symm h1)]
    | rw [dGetD_dSet_ne _ _ _ _ (Ne.symm h2)]

theorem templateSyncCf_name_no_overwrite (cat : Catalog)
    (primary : Option (String × PyVal × PyVal)) (cf0 : PyDict) (s : String)
    (hs : normStr (dGetD cf0 "zabbix_template_name") = some s) :
    dGetD (templateSyncCf cat false primary cf0) "zabbix_template_name" =
      dGetD cf0 "zabbix_template_name" := by
  have hne : s ≠ "" := fun hc => normStr_ne_some_empty _ (hc ▸ hs)
  rcases primary with _ | ⟨pn, pid, pif⟩
  · rfl
  · have hw : needsWrite false (optStrVal (some s)) (PyVal.str pn) = false := by
      simp [needsWrite, optStrVal, pyBlank, hne]
    simp only [templateSyncCf, hs, hw, Bool.false_eq_true, if_false]
    split
    · rw [dGetD_dSet_ne _ _ _ _ (by decide)]
    · rfl

theorem templateSyncCf_int_no_overwrite (cat : Catalog)
    (primary : Option (String × PyVal × PyVal)) (cf0 : PyDict)
    (hb : pyBlank (dGetD cf0 "zabbix_template_int_id") = false) :
    dGetD (templateSyncCf cat false primary cf0) "zabbix_template_int_id" =
      dGetD cf0 "zabbix_template_int_id" := by
  rcases primary with _ | ⟨pn, pid, pif⟩
  · rfl
  · have hw : needsWrite false (dGetD cf0 "zabbix_template_int_id") pif = false := by
      simp [needsWrite, hb]
    simp only [templateSyncCf, hw, Bool.and_false, Bool.false_eq_true, if_false]
    split
    · rw [dGetD_dSet_ne _ _ _ _ (by decide)]
    · rfl

theorem csvStepCf_preserves (ntid : PyDict) (ow : Bool) (pn : Option String)
    (extras : List String) (cf1 : PyDict) (k : String) (h : k ≠ "zabbix_template_id") :
    dGetD (csvStepCf ntid ow pn extras cf1) k = dGetD cf1 k := by
  simp only [csvStepCf]
  split
  · exact dGetD_dSet_ne _ _ _ _ (Ne.symm h)
  · rfl

theorem csvStepCf_csv_no_overwrite (ntid : PyDict) (pn : Option String)
    (extras : List String) (cf1 : PyDict) (s : String)
    (hs : normStr (dGetD cf1 "zabbix_template_id") = some s) :
    csvStepCf ntid false pn extras cf1 = cf1 := by
  have hne : s ≠ "" := fun hc => normStr_ne_some_empty _ (hc ▸ hs)
  have hsb : (s == "") = false := by simpa using hne
  simp only [csvStepCf, hs, Option.getD_some, hsb, Bool.false_and, Bool.false_or,
    Bool.false_eq_true, if_false]

theorem step3_preserve_fields (cat : Catalog) (obj : Inv) (cf0 cf3 : PyDict)
    (h : step3 cat false obj cf0 = some cf3) :
    (∀ s, normStr (dGetD cf0 "zabbix_template_name") = some s →
      dGetD cf3 "zabbix_template_name" = dGetD cf0 "zabbix_template_name") ∧
    (∀ s, normStr (dGetD cf0 "zabbix_template_id") = some s →
      dGetD cf3 "zabbix_template_id" = dGetD cf0 "zabbix_template_id") ∧
    (∀ s, normStr (dGetD cf0 "sla_report_code") = some s →
      dGetD cf3 "sla_report_code" = dGetD cf0 "sla_report_code") ∧
    (pyBlank (dGetD cf0 "zabbix_template_int_id") = false →
      dGetD cf3 "zabbix_template_int_id" = dGetD cf0 "zabbix_template_int_id") := by
  simp only [step3] at h
  rcases hex : parseExtras
      (dGetD (templateSyncCf cat false (primarySelect cat cf0 obj) cf0)
        "zabbix_extra_templates") with _ | extras <;> rw [hex] at h
  · cases h
  · injection h with h
    subst h
    refine ⟨?_, ?_, ?_, ?_⟩
    · intro s hs
      rw [ensureSla_preserves _ _ _ _ (by decide),
        csvStepCf_preserves _ _ _ _ _ _ (by decide),
        templateSyncCf_name_no_overwrite _ _ _ _ hs]
    · intro s hs
      have h1 : dGetD (templateSyncCf cat false (primarySelect cat cf0 obj) cf0)
          "zabbix_template_id" = dGetD cf0 "zabbix_template_id" :=
        templateSyncCf_preserves _ _ _ _ _ (by decide) (by decide)
      rw [ensureSla_preserves _ _ _ _ (by decide),
        csvStepCf_csv_no_overwrite _ _ _ _ s (by rw [h1, hs]), h1]
    · intro s hs
      have h1 : dGetD (templateSyncCf cat false (primarySelect cat cf0 obj) cf0)
          "sla_report_code" = dGetD cf0 "sla_report_code" :=
        templateSyncCf_preserves _ _ _ _ _ (by decide) (by decide)
      have h2 := csvStepCf_preserves cat.name_to_id false
        ((primarySelect cat cf0 obj).map (fun t => t.1)) extras
        (templateSyncCf cat false (primarySelect cat cf0 obj) cf0)
        "sla_report_code" (by decide)
      rw [ensureSla_no_overwrite_set obj _ s (by rw [h2, h1, hs]), h2, h1]
    · intro hb
      rw [ensureSla_preserves _ _ _ _ (by decide),
        csvStepCf_preserves _ _ _ _ _ _ (by decide),
        templateSyncCf_int_no_overwrite _ _ _ hb]

/-- C6 amended: with `overwrite_all_mapped_fields` unset, the run never
replaces a value of `zabbix_template_name`, `zabbix_template_id` or
`sla_report_code` whose whitespace-normalized string form is non-empty, nor
a `zabbix_template_int_id` that is not Python-equal to `None`, `""` or `0`.
(The original claim's raw not-None/not-empty/not-0 test is too weak for the
three string fields: the code normalizes first, so a whitespace-only string
counts as blank and is replaced.) -/
theorem no_overwrite_preserves_fields (cat : Catalog) (commit : Bool) (obj out : Inv)
    (h : processRecord cat false commit obj = some out) :
    (∀ s, normStr (dGetD obj.cfd "zabbix_template_name") = some s →
      dGetD out.cfd "zabbix_template_name" = dGetD obj.cfd "zabbix_template_name") ∧
    (∀ s, normStr (dGetD obj.cfd "zabbix_template_id") = some s →
      dGetD out.cfd "zabbix_template_id" = dGetD obj.cfd "zabbix_template_id") ∧
    (∀ s, normStr (dGetD obj.cfd "sla_report_code") = some s →
      dGetD out.cfd "sla_report_code" = dGetD obj.cfd "sla_report_code") ∧
    (pyBlank (dGetD obj.cfd "zabbix_template_int_id") = false →
      dGetD out.cfd "zabbix_template_int_id" = dGetD obj.cfd "zabbix_template_int_id") := by
  cases commit
  · rcases processRecord_commit_false cat false obj with hp | hp
    · rw [hp] at h
      injection h with h
      subst h
      exact ⟨fun _ _ => rfl, fun _ _ => rfl, fun _ _ => rfl, fun _ => rfl⟩
    · rw [hp] at h
      cases h
  · simp only [processRecord] at h
    cases hg1 : step1Gate obj obj.cfd <;> rw [hg1] at h <;>
      simp only [Bool.not_false, Bool.not_true, Bool.false_eq_true, eq_self_iff_true,
        if_true, if_false] at h
    · injection h with h
      subst h
      refine ⟨fun s hs => ?_, fun s hs => ?_, fun s hs => ?_, fun hb => ?_⟩ <;>
        dsimp only <;>
        rw [readyEval_preserves _ _ _ (by decide) (by decide),
          dGetD_dSet_ne _ _ _ _ (by decide), dGetD_dSet_ne _ _ _ _ (by decide)]
    · cases hg2 : (step2Missing obj obj.cfd).isEmpty <;> rw [hg2] at h <;>
        simp only [Bool.not_false, Bool.not_true, Bool.false_eq_true, eq_self_iff_true,
          if_true, if_false] at h
      · injection h with h
        subst h
        refine ⟨fun s hs => ?_, fun s hs => ?_, fun s hs => ?_, fun hb => ?_⟩ <;>
          dsimp only <;>
          rw [readyEval_preserves _ _ _ (by decide) (by decide),
            dGetD_dSet_ne _ _ _ _ (by decide)]
      · rcases hstep : step3 cat false obj obj.cfd with _ | cf3 <;> rw [hstep] at h
        · cases h
        · injection h with h
          subst h
          obtain ⟨p1, p2, p3, p4⟩ := step3_preserve_fields cat obj obj.cfd cf3 hstep
          refine ⟨fun s hs => ?_, fun s hs => ?_, fun s hs => ?_, fun hb => ?_⟩ <;>
            dsimp only <;>
            rw [readyEval_preserves _ _ _ (by decide) (by decide)]
          · exact p1 s hs
          · exact p2 s hs
          · exact p3 s hs
          · exact p4 hb

/-- Counterexample to C6 as stated: `exObj`'s `zabbix_template_name` holds
the whitespace-only string `" "`, which is not `None`, not `""` and not `0`,
yet the run (without `overwrite_all_mapped_fields`) replaces it with the
platform's primary template name `"Linux"`. -/
theorem no_overwrite_counterexample :
    dGetD exObj.cfd "zabbix_template_name" = PyVal.str " " ∧
    pyBlank (PyVal.str " ") = false ∧
    (processRecord exCat false true exObj).map
      (fun o => dGetD o.cfd "zabbix_template_name") = some (PyVal.str "Linux") :=
  ⟨rfl, by decide, rfl⟩

/-- Witness for the amended C6 theorem: a device whose four mapped fields all
hold normalized-non-blank values keeps them all through the run. -/
def exObjFull : Inv :=
  { exObj with
    cfd := [("mon_req", PyVal.bool true), ("zabbix_template_name", PyVal.str "Win"),
            ("zabbix_template_id", PyVal.str "7"), ("sla_report_code", PyVal.str "S"),
            ("zabbix_template_int_id", PyVal.int 3), ("environment", PyVal.str "prod")] }

theorem no_overwrite_preserves_fields_witness :
    processRecord exCat false true exObjFull =
      some { exObjFull with
             cfd := [("mon_req", PyVal.bool true), ("zabbix_template_name", PyVal.str "Win"),
                     ("zabbix_template_id", PyVal.str "7"), ("sla_report_code", PyVal.str "S"),
                     ("zabbix_template_int_id", PyVal.int 3), ("environment", PyVal.str "prod"),
                     ("zabbix_status", PyVal.bool true),
                     ("monitoring_status", PyVal.str "In-progress")] } ∧
    dGetD ((processRecord exCat false true exObjFull).getD exObjFull).cfd
      "zabbix_template_name" = PyVal.str "Win" :=
  ⟨rfl,
    ((no_overwrite_preserves_fields exCat true exObjFull _ rfl).1 "Win" rfl).trans rfl⟩

/- ---------- C5: the zabbix_template_id CSV ---------- -/

/-- Spec side of C5: case-insensitive first-occurrence dedup of a name list
(keyed, as the code is, on the stripped lower-cased name). -/
def dedupCIAux (seen : List String) : List String → List String
  | [] => []
  | n :: tl =>
    if strLower (pyStrip n) ≠ "" && !seen.contains (strLower (pyStrip n)) then
      n :: dedupCIAux (seen ++ [strLower (pyStrip n)]) tl
    else dedupCIAux seen tl

def dedupCI (l : List String) : List String :=
  dedupCIAux [] l

/-- Spec side of C5, in the claim's words: the comma-separated join of the
template ids resolved (to a non-`None` value) from the primary template name
followed by the parsed extras, with names deduplicated case-insensitively in
first-occurrence order and unresolvable names skipped. -/
def specTemplateIds (ntid : PyDict) (primaryName : Option String) (extras : List String) :
    String :=
  joinComma ((dedupCI (primaryName.toList ++ extras)).filterMap
    (fun n =>
      match dGetD ntid (strLower (pyStrip n)) with
      | .none => Option.none
      | t => some (pyStr t)))

theorem namesAccum_fold (extras : List String) (seen names : List String) :
    (extras.foldl
      (fun (acc : List String × List String) n =>
        if strLower (pyStrip n) ≠ "" && !acc.1.contains (strLower (pyStrip n)) then
          (acc.1 ++ [strLower (pyStrip n)], acc.2 ++ [n])
        else acc)
      (seen, names)).2 = names ++ dedupCIAux seen extras := by
  induction extras generalizing seen names with
  | nil => simp [dedupCIAux]
  | cons n tl ih =>
    simp only [List.foldl_cons, dedupCIAux]
    by_cases hk : (strLower (pyStrip n) ≠ "" && !seen.contains (strLower (pyStrip n))) = true
    · rw [if_pos hk, if_pos hk, ih]
      simp
    · rw [if_neg hk, if_neg hk, ih]

theorem resolveIds_fold (ntid : PyDict) (names : List String) (acc : List PyVal) :
    names.foldl
      (fun ids n =>
        match dGetD ntid (strLower (pyStrip n)) with
        | .none => ids
        | t => ids ++ [t]) acc =
      acc ++ names.filterMap
        (fun n =>
          match dGetD ntid (strLower (pyStrip n)) with
          | .none => Option.none
          | t => some t) := by
  induction names generalizing acc with
  | nil => simp
  | cons n tl ih =>
    simp only [List.foldl_cons, List.filterMap_cons]
    cases hv : dGetD ntid (strLower (pyStrip n)) <;> simp [hv, ih]

theorem newCsv_eq_spec (ntid : PyDict) (primaryName : Option String) (extras : List String)
    (hp : ∀ s, primaryName = some s → pyStrip s = s ∧ (strLower s = "" ↔ s = "")) :
    newCsv ntid primaryName extras = specTemplateIds ntid primaryName extras := by
  have hnames : namesAccum primaryName extras = dedupCI (primaryName.toList ++ extras) := by
    rcases primaryName with _ | pn
    · simp only [namesAccum, dedupCI, Option.toList_none, List.nil_append]
      rw [namesAccum_fold extras [] []]
      simp
    · obtain ⟨hstrip, hiff⟩ := hp pn rfl
      by_cases hpn : pn = ""
      · subst hpn
        simp only [namesAccum, dedupCI, Option.toList_some, List.singleton_append]
        rw [if_neg (by simp), namesAccum_fold extras [] []]
        simp only [List.nil_append, dedupCIAux, hstrip]
        rw [if_neg (by decide)]
      · simp only [namesAccum, dedupCI, Option.toList_some, List.singleton_append]
        rw [if_pos (by simpa using hpn), namesAccum_fold extras [strLower pn] [pn]]
        simp only [dedupCIAux, hstrip]
        rw [if_pos (by simp [hpn, hiff])]
        simp
  simp only [newCsv, resolveIds, hnames]
  rw [resolveIds_fold ntid _ []]
  simp only [List.nil_append, specTemplateIds, List.map_filterMap]
  have hfn : (fun n => Option.map pyStr
        (match dGetD ntid (strLower (pyStrip n)) with
         | PyVal.none => Option.none
         | t => some t)) =
      (fun n =>
        match dGetD ntid (strLower (pyStrip n)) with
        | PyVal.none => Option.none
        | t => some (pyStr t)) := by
    funext n
    cases hv : dGetD ntid (strLower (pyStrip n)) <;> simp [hv]
  rw [hfn]

theorem step3_csv_written (cat : Catalog) (ow : Bool) (obj : Inv) (cf0 cf3 : PyDict)
    (h : step3 cat ow obj cf0 = some cf3) :
    dGetD cf3 "zabbix_template_id" = dGetD cf0 "zabbix_template_id" ∨
    ∃ extras, parseExtras (dGetD cf0 "zabbix_extra_templates") = some extras ∧
      dGetD cf3 "zabbix_template_id" =
        PyVal.str (newCsv cat.name_to_id
          ((primarySelect cat cf0 obj).map (fun t => t.1)) extras) := by
  simp only [step3] at h
  have hex0 : dGetD (templateSyncCf cat ow (primarySelect cat cf0 obj) cf0)
      "zabbix_extra_templates" = dGetD cf0 "zabbix_extra_templates" :=
    templateSyncCf_preserves _ _ _ _ _ (by decide) (by decide)
  rw [hex0] at h
  rcases hex : parseExtras (dGetD cf0 "zabbix_extra_templates") with _ | extras <;>
    rw [hex] at h
  · cases h
  · injection h with h
    subst h
    rw [ensureSla_preserves _ _ _ _ (by decide)]
    simp only [csvStepCf]
    split
    · right
      exact ⟨extras, rfl, dGetD_dSet_same _ _ _⟩
    · left
      exact templateSyncCf_preserves _ _ _ _ _ (by decide) (by decide)

/-- C5: the value written to `zabbix_template_id` is the comma-separated join
of the template ids resolved from the primary template name followed by the
parsed extra template names, deduplicated case-insensitively in
first-occurrence order, with unresolvable names skipped: the code's CSV
builder coincides with that specification (given a primary name in the
already-stripped form `primarySelect` produces), and a record leaving step 3
carries either its old `zabbix_template_id` or exactly that CSV. -/
theorem template_id_csv_is_spec_join :
    (∀ (ntid : PyDict) (primaryName : Option String) (v : PyVal) (extras : List String),
      parseExtras v = some extras →
      (∀ s, primaryName = some s → pyStrip s = s ∧ (strLower s = "" ↔ s = "")) →
      newCsv ntid primaryName extras = specTemplateIds ntid primaryName extras) ∧
    (∀ (cat : Catalog) (ow : Bool) (obj : Inv) (cf0 cf3 : PyDict),
      step3 cat ow obj cf0 = some cf3 →
      dGetD cf3 "zabbix_template_id" = dGetD cf0 "zabbix_template_id" ∨
      ∃ extras, parseExtras (dGetD cf0 "zabbix_extra_templates") = some extras ∧
        dGetD cf3 "zabbix_template_id" =
          PyVal.str (newCsv cat.name_to_id
            ((primarySelect cat cf0 obj).map (fun t => t.1)) extras)) :=
  ⟨fun ntid pn _v extras _hx hp => newCsv_eq_spec ntid pn extras hp,
   fun cat ow obj cf0 cf3 h => step3_csv_written cat ow obj cf0 cf3 h⟩

def exObjEmptyCf : Inv := { exObj with cfd := [] }

/-- Witness for C5 at concrete inputs: a parsed extras list with a
case-insensitive duplicate and an unresolvable name, and a concrete step-3
output. -/
theorem template_id_csv_is_spec_join_witness :
    (parseExtras (PyVal.str "win, LINUX, ghost") = some ["win", "LINUX", "ghost"] ∧
      newCsv [("linux", PyVal.int 1), ("win", PyVal.int 2)] (some "Linux")
          ["win", "LINUX", "ghost"] =
        specTemplateIds [("linux", PyVal.int 1), ("win", PyVal.int 2)] (some "Linux")
          ["win", "LINUX", "ghost"]) ∧
    (step3 exCat false exObjEmptyCf [] =
        some [("zabbix_template_name", PyVal.str "Linux"),
              ("zabbix_template_id", PyVal.str "10042")] ∧
      (dGetD [("zabbix_template_name", PyVal.str "Linux"),
              ("zabbix_template_id", PyVal.str "10042")] "zabbix_template_id" =
          dGetD ([] : PyDict) "zabbix_template_id" ∨
        ∃ extras, parseExtras (dGetD ([] : PyDict) "zabbix_extra_templates") = some extras ∧
          dGetD [("zabbix_template_name", PyVal.str "Linux"),
                 ("zabbix_template_id", PyVal.str "10042")] "zabbix_template_id" =
            PyVal.str (newCsv exCat.name_to_id
              ((primarySelect exCat [] exObjEmptyCf).map (fun t => t.1)) extras))) :=
  ⟨⟨rfl,
    template_id_csv_is_spec_join.1 _ _ (PyVal.str "win, LINUX, ghost") _ rfl
      (fun s h => by
        injection h with h
        subst h
        exact ⟨rfl, by decide⟩)⟩,
   ⟨rfl, template_id_csv_is_spec_join.2 exCat false exObjEmptyCf [] _ rfl⟩⟩

/- ---------- C9: single pass, fixed order ---------- -/

theorem foldRecords_events (cat : Catalog) (ow c : Bool) (kind : String)
    (sel : Inv → Bool) (l : List Inv) :
    ∃ l' : List Inv, l'.Sublist l ∧
      (foldRecords cat ow c kind sel l).2 =
        l'.map (fun o => Event.visit kind o.id cat) := by
  induction l with
  | nil => exact ⟨[], List.Sublist.refl [], rfl⟩
  | cons o tl ih =>
    obtain ⟨l', hsub, hev⟩ := ih
    unfold foldRecords
    by_cases hs : sel o
    · rw [if_pos hs]
      rcases hp : processRecord cat ow c o with _ | o'
      · exact ⟨[o], (List.nil_sublist tl).cons₂ o, rfl⟩
      · exact ⟨o :: l', hsub.cons₂ o, by simp [hev]⟩
    · rw [if_neg hs]
      exact ⟨l', hsub.cons o, by simp [hev]⟩

theorem visits_nodup (kind : String) (cat : Catalog) (l' base : List Inv)
    (hsub : l'.Sublist base) (hn : (base.map Inv.id).Nodup) :
    (l'.map (fun o => Event.visit kind o.id cat)).Nodup := by
  have h1 : (l'.map Inv.id).Nodup := (hn.sublist (hsub.map Inv.id))
  have h2 : l'.map (fun o => Event.visit kind o.id cat) =
      (l'.map Inv.id).map (fun i => Event.visit kind i cat) := by
    rw [List.map_map]
    rfl
  rw [h2]
  refine h1.map ?_
  intro i j hij
  injection hij

/-- C9: `run` is a single pass in a fixed order: the catalog maps are built
once, before any inventory record is visited; every visit carries exactly
those maps (they are never modified during the iteration); and, as device
and VM primary keys are unique, no record is visited twice. -/
theorem run_single_pass (data : RunData) (commit0 : Bool) (db : DB) (cat : Catalog)
    (hcf : db.zabbixStatusCF = some "boolean")
    (hcat : loadCatalog db.registry db.platforms = some cat)
    (hd : (db.devices.map Inv.id).Nodup) (hv : (db.vms.map Inv.id).Nodup) :
    ∃ visits,
      (run data commit0 db).events = Event.built cat :: visits ∧
      (∀ e ∈ visits, ∃ k i, e = Event.visit k i cat) ∧
      visits.Nodup := by
  obtain ⟨zcf, reg, plats, devs0, vms0⟩ := db
  simp only at hcf hcat hd hv
  subst hcf
  unfold run
  rw [hcat]
  dsimp only
  rw [if_neg (show ¬("boolean" ≠ "boolean") by decide)]
  obtain ⟨ld, hsubd, hevd⟩ := foldRecords_events cat data.overwrite_all_mapped_fields
    (commit0 && !data.dry_run) "Device"
    (fun d => data.include_devices &&
      match data.limit_site with
      | some l => d.site == some l
      | Option.none => true) devs0
  obtain ⟨lv, hsubv, hevv⟩ := foldRecords_events cat data.overwrite_all_mapped_fields
    (commit0 && !data.dry_run) "VM"
    (fun v => data.include_vms &&
      match data.limit_site with
      | some l => v.site == some l
      | Option.none => true) vms0
  have hndd := visits_nodup "Device" cat ld devs0 hsubd hd
  have hndv := visits_nodup "VM" cat lv vms0 hsubv hv
  have hshaped : ∀ e ∈ ld.map (fun o => Event.visit "Device" o.id cat),
      ∃ k i, e = Event.visit k i cat := by
    intro e he
    obtain ⟨o, _, rfl⟩ := List.mem_map.mp he
    exact ⟨"Device", o.id, rfl⟩
  have hshapev : ∀ e ∈ lv.map (fun o => Event.visit "VM" o.id cat),
      ∃ k i, e = Event.visit k i cat := by
    intro e he
    obtain ⟨o, _, rfl⟩ := List.mem_map.mp he
    exact ⟨"VM", o.id, rfl⟩
  have hdisj : (ld.map (fun o => Event.visit "Device" o.id cat)).Disjoint
      (lv.map (fun o => Event.visit "VM" o.id cat)) := by
    intro e hed hev2
    obtain ⟨o1, _, rfl⟩ := List.mem_map.mp hed
    obtain ⟨o2, _, heq⟩ := List.mem_map.mp hev2
    injection heq with hk _ _
    exact absurd hk (by decide)
  rcases hrd : (foldRecords cat data.overwrite_all_mapped_fields (commit0 && !data.dry_run)
      "Device"
      (fun d => data.include_devices &&
        match data.limit_site with
        | some l => d.site == some l
        | Option.none => true) devs0).1 with _ | devs
  · exact ⟨_, rfl, by rw [hevd]; exact hshaped, by rw [hevd]; exact hndd⟩
  · rcases hrv : (foldRecords cat data.overwrite_all_mapped_fields (commit0 && !data.dry_run)
        "VM"
        (fun v => data.include_vms &&
          match data.limit_site with
          | some l => v.site == some l
          | Option.none => true) vms0).1 with _ | vms
    all_goals
      refine ⟨_, rfl, ?_, ?_⟩
      · rw [hevd, hevv]
        intro e he
        rcases List.mem_append.mp he with he | he
        · exact hshaped e he
        · exact hshapev e he
      · rw [hevd, hevv]
        exact hndd.append hndv hdisj

/-- The catalog maps loaded from `exDB`'s registry. -/
def exCatA : Catalog :=
  { name_to_id := [("a", PyVal.int 1)], name_to_iface := Option.none,
    by_platform := [(7, ("A", PyVal.int 1, PyVal.none))] }

/-- Witness for C9 at the concrete one-device database. -/
theorem run_single_pass_witness :
    (exDB.zabbixStatusCF = some "boolean" ∧
      loadCatalog exDB.registry exDB.platforms = some exCatA ∧
      (exDB.devices.map Inv.id).Nodup ∧ (exDB.vms.map Inv.id).Nodup) ∧
    (∃ visits, (run exDryData true exDB).events = Event.built exCatA :: visits ∧
      (∀ e ∈ visits, ∃ k i, e = Event.visit k i exCatA) ∧ visits.Nodup) :=
  ⟨⟨rfl, rfl, by decide, by decide⟩,
    run_single_pass exDryData true exDB exCatA rfl rfl (by decide) (by decide)⟩

/- ---------- C10: first-wins by_platform ---------- -/

theorem iGet_append_of_isSome {β : Type} (m l : List (Int × β)) (k : Int) (v : β)
    (h : iGet m k = some v) : iGet (m ++ l) k = some v := by
  induction m with
  | nil => cases h
  | cons kv tl ih =>
    by_cases hk : kv.1 = k
    · simp only [iGet, hk, if_pos] at h ⊢
      · exact h
    · simp only [List.cons_append, iGet, hk, if_neg, if_false] at h ⊢
      exact ih h

theorem iGet_append_single_ne {β : Type} (m : List (Int × β)) (k q : Int) (t : β)
    (hq : q ≠ k) (h : iGet m k = Option.none) :
    iGet (m ++ [(q, t)]) k = Option.none := by
  induction m with
  | nil => simp [iGet, hq]
  | cons kv tl ih =>
    by_cases hk : kv.1 = k
    · simp only [iGet, hk, if_pos] at h
      cases h
    · simp only [List.cons_append, iGet, hk, if_neg, if_false] at h ⊢
      exact ih h

theorem iGet_append_self {β : Type} (m : List (Int × β)) (k : Int) (t : β)
    (h : iGet m k = Option.none) : iGet (m ++ [(k, t)]) k = some t := by
  induction m with
  | nil => simp [iGet]
  | cons kv tl ih =>
    by_cases hk : kv.1 = k
    · simp only [iGet, hk, if_pos] at h
      cases h
    · simp only [List.cons_append, iGet, hk, if_neg, if_false] at h ⊢
      exact ih h

theorem bpInsert_lookup {β : Type} (tpl : β) (pks : List Int) (m : List (Int × β)) (pk : Int) :
    iGet (pks.foldl
        (fun m2 p => if (iGet m2 p).isSome then m2 else m2 ++ [(p, tpl)]) m) pk =
      (match iGet m pk with
       | some t => some t
       | Option.none => if pk ∈ pks then some tpl else Option.none) := by
  induction pks generalizing m with
  | nil => cases h : iGet m pk <;> simp [h]
  | cons q qs ih =>
    simp only [List.foldl_cons]
    by_cases hqs : (iGet m q).isSome = true
    · rw [if_pos hqs, ih]
      cases h : iGet m pk with
      | some t => rfl
      | none =>
        have hpq : pk ≠ q := by
          intro hc
          rw [← hc, h] at hqs
          cases hqs
        simp [List.mem_cons, hpq]
    · rw [if_neg hqs, ih]
      cases h : iGet m pk with
      | some t => rw [iGet_append_of_isSome _ _ _ _ h]
      | none =>
        by_cases hpq : pk = q
        · subst hpq
          rw [iGet_append_self _ _ _ h]
          simp [List.mem_cons]
        · rw [iGet_append_single_ne _ _ _ _ (fun hc => hpq hc.symm) h]
          simp [List.mem_cons, hpq]

theorem loadCatalog_by_platform_first (platforms : List PlatformRec) (jn : Option String)
    (rows : List Row) (acc : CatAcc) (pk : Int) :
    iGet (rows.foldl (scanRow platforms jn) acc).by_platform pk =
      (match iGet acc.by_platform pk with
       | some t => some t
       | Option.none =>
         (rows.find? (fun r => (rowName jn r).isSome &&
             (platformPksFromRow platforms r jn).contains pk)).map
           (fun r => ((rowName jn r).getD "", rowTid jn r, rowIid jn r))) := by
  induction rows generalizing acc with
  | nil => cases h : iGet acc.by_platform pk <;> simp [h]
  | cons r tl ih =>
    simp only [List.foldl_cons]
    rw [ih]
    rcases hn : rowName jn r with _ | nm
    · have hscan : scanRow platforms jn acc r = acc := by
        simp [scanRow, hn]
      rw [hscan]
      cases h : iGet acc.by_platform pk <;> simp [h, List.find?, hn]
    · have hscan : (scanRow platforms jn acc r).by_platform =
          (platformPksFromRow platforms r jn).foldl
            (fun m2 p => if (iGet m2 p).isSome then m2
                         else m2 ++ [(p, (nm, rowTid jn r, rowIid jn r))]) acc.by_platform := by
        simp [scanRow, hn]
      rw [hscan, bpInsert_lookup]
      cases h : iGet acc.by_platform pk with
      | some t => rfl
      | none =>
        by_cases hmem : pk ∈ platformPksFromRow platforms r jn
        · simp [h, hmem, List.find?, hn]
        · simp [h, hmem, List.find?, hn]

/-- C10 amended: while `_load_catalog` builds `by_platform`, each platform pk
is bound to the (name, id, interface) tuple of the first scanned row that
yields a usable template name AND links to that platform; rows scanned later
that link to the same platform never replace an existing entry.  (A nameless
linking row is skipped by the `continue` before platform extraction, so it
binds nothing — the original claim's "first scanned row that links to the
platform" is wrong for such rows.) -/
theorem by_platform_first_named_row (platforms : List PlatformRec) (rows : List Row)
    (jn : Option String) (pk : Int) :
    iGet (loadCatalogMaps platforms rows jn).by_platform pk =
      (rows.find? (fun r => (rowName jn r).isSome &&
          (platformPksFromRow platforms r jn).contains pk)).map
        (fun r => ((rowName jn r).getD "", rowTid jn r, rowIid jn r)) := by
  have h := loadCatalog_by_platform_first platforms jn rows ⟨[], [], false, []⟩ pk
  simpa [loadCatalogMaps] using h

/-- A catalog row that links to platform 7 but carries no template name. -/
def cRow1 : Row := ⟨[("platform", PyVal.fk (some 7))]⟩

/-- Counterexample to C10 as stated: `cRow1` is scanned first and links to
platform 7, but yields no template name; the binding for 7 is the tuple of
the second row `exRow`, not of the first linking row. -/
theorem by_platform_counterexample :
    rowName Option.none cRow1 = Option.none ∧
    platformPksFromRow [] cRow1 Option.none = [7] ∧
    iGet (loadCatalogMaps [] [cRow1, exRow] Option.none).by_platform 7 =
      some ("A", PyVal.int 1, PyVal.none) :=
  ⟨rfl, rfl, rfl⟩

end NB